import Mathlib

/-!
Verification development for the menuvision bot core
(`sheetsCache.js`, `styleSession.js`, `index.js`).

The JavaScript source is shallowly embedded: pure string helpers become
Lean functions on `String`/`List Char`; the two stateful components
(the style catalog cache and the per-user session store) become explicit
state-passing functions; the event-loop concurrency of the single-flight
refresh is modelled by splitting a `refresh()` call into its synchronous
prefix (`refreshStart`, everything up to the first `await`) and its
completion (`refreshComplete`, the continuation that runs when the
underlying fetch settles); time (`Date.now()`) is passed explicitly as a
`Nat` of milliseconds; the fallible sheet fetch is an `Except` parameter.
-/

namespace MenuVision

/-- JavaScript whitespace as used by `String.prototype.trim` and `\s`
(restricted to the characters that can occur in chat text handled here). -/
def isJsWs (c : Char) : Bool :=
  c == ' ' || c == '\t' || c == '\n' || c == '\r' ||
  c == '\x0b' || c == '\x0c'

/-- `String.prototype.trim` on the character list: drop whitespace from
both ends. -/
def trimChars (l : List Char) : List Char :=
  ((l.dropWhile isJsWs).reverse.dropWhile isJsWs).reverse

/-- `String.prototype.trim`. -/
def jsTrim (s : String) : String :=
  String.mk (trimChars s.data)

/-- `String.prototype.toLowerCase` (ASCII range, which covers the
provider markers "openai" / "gemini"). -/
def jsToLower (s : String) : String :=
  String.mk (s.data.map Char.toLower)

/-- `sheetsCache.js` `normalizeCode`: null/undefined become "", anything
else is stringified and trimmed.  `none` plays null/undefined. -/
def normalizeCode (v : Option String) : String :=
  match v with
  | none => ""
  | some s => jsTrim s

/-- `sheetsCache.js` `normalizePrompt`: same normalization as codes. -/
def normalizePrompt (v : Option String) : String :=
  match v with
  | none => ""
  | some s => jsTrim s

/-- `.replace(/\s+/g, " ")`: collapse each maximal run of whitespace to a
single space.  The flag remembers whether we are inside a run. -/
def collapseWsAux : Bool → List Char → List Char
  | _, [] => []
  | inWs, c :: rest =>
    if isJsWs c then
      if inWs then collapseWsAux true rest
      else ' ' :: collapseWsAux true rest
    else c :: collapseWsAux false rest

/-- `index.js` `normalizeText`: stringify-or-empty, trim, collapse
whitespace runs to single spaces. -/
def normalizeText (s : String) : String :=
  String.mk (collapseWsAux false (trimChars s.data))

/-- `index.js` `isNumericCode`: `/^\d+$/` on the normalized text. -/
def isNumericCode (s : String) : Bool :=
  let t := normalizeText s
  t ≠ "" && t.data.all Char.isDigit

/-- Trailing punctuation accepted by the greeting regex: `[!.،]*`. -/
def isGreetingPunct (c : Char) : Bool :=
  c == '!' || c == '.' || c == '،'

/-- Strip the trailing `[!.،]*` run. -/
def stripGreetingPunct (l : List Char) : List Char :=
  (l.reverse.dropWhile isGreetingPunct).reverse

/-- `index.js` `isGreeting`: the exact word "السلام", or the regex
`^السلام\s+عليكم(?:\s+ورحمة\s+الله(?:\s+وبركاته)?)?[!.،]*$` applied to the
normalized text (in which every `\s+` is a single space, so the regex
accepts exactly the three phrase forms followed by optional punctuation). -/
def isGreeting (s : String) : Bool :=
  let t := normalizeText s
  if t = "السلام" then true
  else
    let core := String.mk (stripGreetingPunct t.data)
    core = "السلام عليكم" ||
    core = "السلام عليكم ورحمة الله" ||
    core = "السلام عليكم ورحمة الله وبركاته"

/-! ### Association-list model of the JavaScript `Map` -/

/-- `Map.prototype.set`: replace the binding in place, else append. -/
def aset {α : Type} : List (String × α) → String → α → List (String × α)
  | [], k, v => [(k, v)]
  | (k', v') :: rest, k, v =>
    if k' = k then (k, v) :: rest else (k', v') :: aset rest k v

/-- `Map.prototype.get` (as an `Option`). -/
def aget {α : Type} : List (String × α) → String → Option α
  | [], _ => none
  | (k', v') :: rest, k => if k' = k then some v' else aget rest k

/-- `Map.prototype.delete`. -/
def adel {α : Type} (m : List (String × α)) (k : String) : List (String × α) :=
  m.filter (fun kv => kv.1 ≠ k)

/-! ### Style catalog cache (`sheetsCache.js`) -/

/-- The row-building loop of `fetchStylesOnce`: each sheet row is a list
of cells (`row?.[0]` / `row?.[1]` are `List.get?`); rows whose normalized
code or prompt is empty are skipped (`if (!code || !prompt) continue`). -/
def buildStyles (rows : List (List String)) : List (String × String) :=
  rows.foldl
    (fun m row =>
      let code := normalizeCode (row.get? 0)
      let prompt := normalizePrompt (row.get? 1)
      if code = "" ∨ prompt = "" then m else aset m code prompt)
    []

/-- Outcome of the underlying sheet fetch: the parsed rows, or a
`SourceUnavailable`-style error message. -/
def FetchResult : Type :=
  Except String (List (List String))

/-- The mutable closure state of `createSheetsCache`.  `refreshInFlight`
holds the identity of the pending refresh promise when one exists;
`fetchCount` counts how many underlying source fetches have been started
(a ghost field used to state the single-flight property); `nextPromiseId`
supplies fresh promise identities. -/
structure CacheState where
  styles : List (String × String)
  lastRefreshAt : Nat
  refreshInFlight : Option Nat
  fetchCount : Nat
  nextPromiseId : Nat
deriving Repr, DecidableEq

/-- The cache state at module load: empty map, `lastRefreshAt = 0`,
no refresh in flight. -/
def emptyCache : CacheState :=
  { styles := [], lastRefreshAt := 0, refreshInFlight := none,
    fetchCount := 0, nextPromiseId := 0 }

/-- The synchronous prefix of `refresh()`: if a refresh promise is
already in flight the caller just receives it (`if (refreshInFlight)
return refreshInFlight`); otherwise a new promise is created, the
underlying fetch is started, and the in-flight handle is set — all
before the caller first suspends.  Returns the promise the caller
awaits. -/
def refreshStart (s : CacheState) : CacheState × Nat :=
  match s.refreshInFlight with
  | some p => (s, p)
  | none =>
    ({ s with refreshInFlight := some s.nextPromiseId,
              fetchCount := s.fetchCount + 1,
              nextPromiseId := s.nextPromiseId + 1 },
     s.nextPromiseId)

/-- The completion of an in-flight refresh, given how the underlying
fetch settled: on success the snapshot is replaced wholesale and the
refresh timestamp recorded; on failure nothing is written.  In both
cases the `finally` clause releases the in-flight handle.  The second
component is the settlement every caller awaiting the promise
observes. -/
def refreshComplete (s : CacheState) (fetch : FetchResult) (now : Nat) :
    CacheState × Except String (List (String × String)) :=
  match fetch with
  | Except.ok rows =>
    let newMap := buildStyles rows
    ({ s with styles := newMap, lastRefreshAt := now, refreshInFlight := none },
     Except.ok newMap)
  | Except.error e =>
    ({ s with refreshInFlight := none }, Except.error e)

/-- A whole `refresh()` call that runs to completion without
interleaving: start, then complete with the given fetch outcome. -/
def refreshRun (s : CacheState) (fetch : FetchResult) (now : Nat) :
    CacheState × Except String (List (String × String)) :=
  refreshComplete (refreshStart s).1 fetch now

/-- `getPrompt`: normalize the code, look it up in the current snapshot;
`styles.get(key) || null` maps both a missing key and an empty stored
string to null. -/
def getPrompt (s : CacheState) (code : String) : Option String :=
  match aget s.styles (normalizeCode (some code)) with
  | none => none
  | some p => if p = "" then none else some p

/-- `ensureWarm`: refresh only when the current snapshot is empty. -/
def ensureWarm (s : CacheState) (fetch : FetchResult) (now : Nat) : CacheState :=
  if s.styles.length = 0 then (refreshRun s fetch now).1 else s

/-! ### Per-user session store (`styleSession.js`) -/

/-- Milliseconds of session TTL: 5 minutes. -/
def TTL_MS : Nat := 5 * 60 * 1000

/-- A stored session value: `{ code, expiresAt }`. -/
structure Session where
  code : String
  expiresAt : Nat
deriving Repr, DecidableEq

/-- Result of `getStatus`. -/
inductive SessionStatus where
  | OK (code : String)
  | EXPIRED
  | NONE
deriving Repr, DecidableEq

/-- `set(userId, code)`: create or overwrite the session with expiry
`now + TTL_MS`. -/
def sset (m : List (String × Session)) (userId code : String) (now : Nat) :
    List (String × Session) :=
  aset m userId { code := code, expiresAt := now + TTL_MS }

/-- `getStatus(userId)`: NONE when absent; when present but past expiry,
delete it and report EXPIRED; otherwise OK with the stored code and no
mutation.  Returns the status together with the (possibly updated)
map. -/
def getStatus (m : List (String × Session)) (userId : String) (now : Nat) :
    SessionStatus × List (String × Session) :=
  match aget m userId with
  | none => (SessionStatus.NONE, m)
  | some sess =>
    if sess.expiresAt < now then (SessionStatus.EXPIRED, adel m userId)
    else (SessionStatus.OK sess.code, m)

/-- `clear(userId)`: unconditional delete. -/
def sclear (m : List (String × Session)) (userId : String) :
    List (String × Session) :=
  adel m userId

/-! ### The object returned by `createSheetsCache` -/

/-- The members of the object `createSheetsCache` can make available to
its callers.  `getModel?` and `getProvider?` are `Option`-valued because
`index.js` probes for them dynamically
(`typeof stylesCache.getModel === "function"`): `none` embeds the member
being absent from the returned object.  The `startAutoRefresh` timer and
the `lastRefreshAt`/`size` getters read the same state and add no
behaviour to model beyond `refreshRun`. -/
structure SheetsCacheOps where
  refresh : CacheState → FetchResult → Nat →
    CacheState × Except String (List (String × String))
  ensureWarm : CacheState → FetchResult → Nat → CacheState
  getPrompt : CacheState → String → Option String
  size : CacheState → Nat
  lastRefreshAt : CacheState → Nat
  getModel? : Option (CacheState → String → Option String)
  getProvider? : Option (CacheState → String → Option String)

/-- The object actually returned by `createSheetsCache` (lines 85–96 of
`sheetsCache.js`): `refresh`, `ensureWarm`, `startAutoRefresh`,
`getPrompt` and the `lastRefreshAt`/`size` getters — and nothing else;
in particular neither a `getModel` nor a `getProvider` member is
defined. -/
def sheetsCacheOps : SheetsCacheOps :=
  { refresh := refreshRun,
    ensureWarm := ensureWarm,
    getPrompt := getPrompt,
    size := fun s => s.styles.length,
    lastRefreshAt := fun s => s.lastRefreshAt,
    getModel? := none,
    getProvider? := none }

/-! ### Flow controller (`index.js`) -/

def MSG_INTRO : String :=
  "Welcome.\n\n1) Send the style number (example: 101)\n2) Then send the food image\n\nIf you send an image without a style number, I will ask you for the style number first."

def MSG_SALAM_REPLY : String := "وعليكم السلام ورحمة الله وبركاته"

def MSG_PROMPT_STYLE : String := "Send the style number to continue."

def MSG_INVALID_STYLE : String := "Invalid style number. Send the style number again."

def MSG_ASK_IMAGE : String := "Send the image."

def MSG_NEED_STYLE_FIRST : String := "Send the style number first."

def MSG_EXPIRED : String := "Session expired. Send the style number again."

def MSG_PROCESSING : String := "Processing..."

def MSG_DONE : String := "Done."

def MSG_FAILED : String := "Failed. Try again."

/-- `String(msg).slice(0, 3500)`: the truncation applied to failure
messages before replying. -/
def truncate3500 (s : String) : String :=
  String.mk (s.data.take 3500)

/-- The two provider adapters of the gateway. -/
inductive Provider where
  | openai
  | gemini
deriving Repr, DecidableEq

/-- The model-selection block of the photo handler:
`let model = "openai"`, then — only if the cache exposes a `getModel`
function — `const m = getModel(code); if (m) model =
String(m).trim().toLowerCase()`.  `getModel?` is the probed member
(already applied to the cache state); its result is `none` for a falsy
null/undefined return, and a returned empty string is also falsy. -/
def selectModel (getModel? : Option (String → Option String)) (code : String) :
    String :=
  match getModel? with
  | none => "openai"
  | some f =>
    match f code with
    | none => "openai"
    | some m => if m = "" then "openai" else jsToLower (jsTrim m)

/-- The dispatch at the bottom of the photo handler:
`if (model === "gemini") … else …` — anything but the exact marker
"gemini" goes to the OpenAI edit adapter. -/
def routeProvider (getModel? : Option (String → Option String)) (code : String) :
    Provider :=
  if selectModel getModel? code = "gemini" then Provider.gemini
  else Provider.openai

/-- Everything a text-handler run produces: the cache and session states
it leaves behind, the replies sent in order, and how many `refresh()`
calls it issued (a ghost counter for the refresh-once policy). -/
structure TextOutcome where
  cache : CacheState
  sessions : List (String × Session)
  replies : List String
  refreshCalls : Nat
deriving Repr, DecidableEq

/-- The `bot.on("text")` handler.  `fetch` is the outcome the underlying
sheet fetch would have if a refresh is performed during this run
(`refresh().catch(() => {})` swallows its failure); `first` is
`isFirstTimeUser`; `now` is the current time.  The persisted
seen-users store is not modelled (it feeds only `first`). -/
def handleText (cache : CacheState) (sessions : List (String × Session))
    (userId rawText : String) (first : Bool) (fetch : FetchResult) (now : Nat) :
    TextOutcome :=
  let text := normalizeText rawText
  if isGreeting text then
    { cache := cache, sessions := sessions,
      replies := [MSG_SALAM_REPLY, if first then MSG_INTRO else MSG_PROMPT_STYLE],
      refreshCalls := 0 }
  else if isNumericCode text then
    match getPrompt cache text with
    | some _ =>
      { cache := cache, sessions := sset sessions userId text now,
        replies := [MSG_ASK_IMAGE], refreshCalls := 0 }
    | none =>
      let cache' := (refreshRun cache fetch now).1
      match getPrompt cache' text with
      | some _ =>
        { cache := cache', sessions := sset sessions userId text now,
          replies := [MSG_ASK_IMAGE], refreshCalls := 1 }
      | none =>
        { cache := cache', sessions := sessions,
          replies := [MSG_INVALID_STYLE], refreshCalls := 1 }
  else
    { cache := cache, sessions := sessions,
      replies := [if first then MSG_INTRO else MSG_PROMPT_STYLE],
      refreshCalls := 0 }

/-- Everything a photo-handler run produces.  `clearCalls` counts the
`styleSessions.clear` invocations (both the explicit one on resolution
failure and the one in `finally`); `providerCalled` records which
gateway adapter was invoked, if any; `sentPhoto` records whether the
edited image was sent back. -/
structure PhotoOutcome where
  cache : CacheState
  sessions : List (String × Session)
  replies : List String
  refreshCalls : Nat
  clearCalls : Nat
  providerCalled : Option Provider
  sentPhoto : Bool
deriving Repr, DecidableEq

/-- The `bot.on("photo")` handler.  `getModel?` is the probed
model-lookup member of the cache object (already applied to the cache
state; `none` when absent — which is the case for `sheetsCacheOps`);
`download` is how `downloadTelegramPhoto` settles (its payload is kept
abstract); `providerRun` is how the selected adapter settles on the
resolved prompt.  Failure payloads are the stringified error messages
the catch block would see. -/
def handlePhoto (cache : CacheState) (getModel? : Option (String → Option String))
    (sessions : List (String × Session)) (userId : String)
    (fetch : FetchResult) (download : Except String String)
    (providerRun : Provider → String → Except String String) (now : Nat) :
    PhotoOutcome :=
  let st := getStatus sessions userId now
  match st.1 with
  | SessionStatus.NONE =>
    { cache := cache, sessions := st.2, replies := [MSG_NEED_STYLE_FIRST],
      refreshCalls := 0, clearCalls := 0, providerCalled := none,
      sentPhoto := false }
  | SessionStatus.EXPIRED =>
    { cache := cache, sessions := st.2, replies := [MSG_EXPIRED],
      refreshCalls := 0, clearCalls := 0, providerCalled := none,
      sentPhoto := false }
  | SessionStatus.OK code =>
    let resolved : CacheState × Option String × Nat :=
      match getPrompt cache code with
      | some p => (cache, some p, 0)
      | none =>
        let cache' := (refreshRun cache fetch now).1
        (cache', getPrompt cache' code, 1)
    match resolved.2.1 with
    | none =>
      { cache := resolved.1, sessions := sclear st.2 userId,
        replies := [MSG_INVALID_STYLE], refreshCalls := resolved.2.2,
        clearCalls := 1, providerCalled := none, sentPhoto := false }
    | some prompt =>
      let provider := routeProvider getModel? code
      match download with
      | Except.error e =>
        { cache := resolved.1, sessions := sclear st.2 userId,
          replies := [MSG_PROCESSING, truncate3500 e],
          refreshCalls := resolved.2.2, clearCalls := 1,
          providerCalled := none, sentPhoto := false }
      | Except.ok _ =>
        match providerRun provider prompt with
        | Except.ok _ =>
          { cache := resolved.1, sessions := sclear st.2 userId,
            replies := [MSG_PROCESSING], refreshCalls := resolved.2.2,
            clearCalls := 1, providerCalled := some provider,
            sentPhoto := true }
        | Except.error e =>
          { cache := resolved.1, sessions := sclear st.2 userId,
            replies := [MSG_PROCESSING, truncate3500 e],
            refreshCalls := resolved.2.2, clearCalls := 1,
            providerCalled := some provider, sentPhoto := false }

/-! ### Helper lemmas about the association-list `Map` model -/

lemma aget_aset_self {α : Type} (m : List (String × α)) (k : String) (v : α) :
    aget (aset m k v) k = some v := by
  induction m with
  | nil => simp [aset, aget]
  | cons kv rest ih =>
    by_cases h : kv.1 = k
    · simp [aset, h, aget]
    · simp [aset, h, aget, ih]

lemma mem_aset {α : Type} (m : List (String × α)) (k : String) (v : α)
    (kv : String × α) (h : kv ∈ aset m k v) : kv = (k, v) ∨ kv ∈ m := by
  induction m with
  | nil =>
    simp [aset] at h
    exact Or.inl h
  | cons kv' rest ih =>
    by_cases hk : kv'.1 = k
    · simp [aset, hk] at h
      rcases h with h | h
      · exact Or.inl h
      · exact Or.inr (List.mem_cons_of_mem _ h)
    · simp [aset, hk] at h
      rcases h with h | h
      · exact Or.inr (by simp [h])
      · rcases ih h with h' | h'
        · exact Or.inl h'
        · exact Or.inr (List.mem_cons_of_mem _ h')

lemma aget_mem {α : Type} (m : List (String × α)) (k : String) (v : α)
    (h : aget m k = some v) : (k, v) ∈ m := by
  induction m with
  | nil => simp [aget] at h
  | cons kv rest ih =>
    by_cases hk : kv.1 = k
    · simp [aget, hk] at h
      have hkv : kv = (k, v) := by
        cases kv
        simp_all
      rw [← hkv]
      exact List.mem_cons_self _ _
    · simp [aget, hk] at h
      exact List.mem_cons_of_mem _ (ih h)

lemma aget_adel_self {α : Type} (m : List (String × α)) (k : String) :
    aget (adel m k) k = none := by
  induction m with
  | nil => rfl
  | cons kv rest ih =>
    by_cases h : kv.1 = k
    · simpa [adel, List.filter_cons, h] using ih
    · simpa [adel, List.filter_cons, h, aget] using ih

/-! ### Helper lemmas about `dropWhile` and trimming -/

lemma head_dropWhile_false {α : Type} {p : α → Bool} :
    ∀ (l : List α) (c : α) (rest : List α),
      l.dropWhile p = c :: rest → p c = false := by
  intro l
  induction l with
  | nil => intro c rest h; simp [List.dropWhile] at h
  | cons a l ih =>
    intro c rest h
    cases hpa : p a with
    | true =>
      rw [List.dropWhile_cons_of_pos hpa] at h
      exact ih c rest h
    | false =>
      rw [List.dropWhile_cons_of_neg (by simp [hpa])] at h
      cases h
      exact hpa

lemma dropWhile_cons_false {α : Type} {p : α → Bool} (c : α) (l : List α)
    (h : p c = false) : (c :: l).dropWhile p = c :: l := by
  simp [List.dropWhile_cons, h]

lemma getLast?_dropWhile {α : Type} {p : α → Bool} :
    ∀ l : List α, l.dropWhile p ≠ [] →
      (l.dropWhile p).getLast? = l.getLast? := by
  intro l
  induction l with
  | nil => intro h; simp [List.dropWhile] at h
  | cons a l ih =>
    intro h
    cases hpa : p a with
    | false => rw [dropWhile_cons_false a l hpa]
    | true =>
      rw [List.dropWhile_cons_of_pos hpa] at h ⊢
      rw [ih h]
      cases l with
      | nil => simp [List.dropWhile] at h
      | cons b l' => simp

lemma trimChars_idem (l : List Char) : trimChars (trimChars l) = trimChars l := by
  unfold trimChars
  cases hB : (l.dropWhile isJsWs).reverse.dropWhile isJsWs with
  | nil => simp
  | cons b B' =>
    have hb : isJsWs b = false := head_dropWhile_false _ _ _ hB
    have hBne : (l.dropWhile isJsWs).reverse.dropWhile isJsWs ≠ [] := by
      rw [hB]; exact List.cons_ne_nil _ _
    have hAne : l.dropWhile isJsWs ≠ [] := by
      intro hA
      rw [hA] at hB
      simp [List.dropWhile] at hB
    obtain ⟨a, A', hA⟩ : ∃ a A', l.dropWhile isJsWs = a :: A' := by
      cases hA : l.dropWhile isJsWs with
      | nil => exact absurd hA hAne
      | cons a A' => exact ⟨a, A', rfl⟩
    have ha : isJsWs a = false := head_dropWhile_false l a A' hA
    have hlast : (b :: B').getLast? = some a := by
      rw [← hB, getLast?_dropWhile _ hBne, List.getLast?_reverse, hA]
      rfl
    have hrevhead : (b :: B').reverse.head? = some a := by
      rw [List.head?_reverse]; exact hlast
    obtain ⟨tl, hrev⟩ : ∃ tl, (b :: B').reverse = a :: tl := by
      cases hrevc : (b :: B').reverse with
      | nil => simp [hrevc] at hrevhead
      | cons c tl =>
        rw [hrevc] at hrevhead
        simp at hrevhead
        exact ⟨tl, by rw [hrevhead]⟩
    rw [hrev, dropWhile_cons_false a tl ha, ← hrev, List.reverse_reverse,
        dropWhile_cons_false b B' hb]

lemma jsTrim_idem (s : String) : jsTrim (jsTrim s) = jsTrim s := by
  unfold jsTrim
  rw [trimChars_idem]

lemma jsTrim_normalizeCode (v : Option String) :
    jsTrim (normalizeCode v) = normalizeCode v := by
  cases v with
  | none => rfl
  | some s => exact jsTrim_idem s

lemma jsTrim_normalizePrompt (v : Option String) :
    jsTrim (normalizePrompt v) = normalizePrompt v := by
  cases v with
  | none => rfl
  | some s => exact jsTrim_idem s

/-! ### Helper lemmas about the snapshot invariant -/

/-- The invariant every snapshot entry keeps: code and prompt are
nonempty and already trimmed (so they are also nonempty after
trimming). -/
def goodEntry (kv : String × String) : Prop :=
  kv.1 ≠ "" ∧ kv.2 ≠ "" ∧ jsTrim kv.1 = kv.1 ∧ jsTrim kv.2 = kv.2

lemma buildStyles_loop_good (rows : List (List String)) :
    ∀ (m : List (String × String)), (∀ kv ∈ m, goodEntry kv) →
      ∀ kv ∈ rows.foldl
        (fun m row =>
          let code := normalizeCode (row.get? 0)
          let prompt := normalizePrompt (row.get? 1)
          if code = "" ∨ prompt = "" then m else aset m code prompt)
        m, goodEntry kv := by
  induction rows with
  | nil => intro m hm kv hkv; exact hm kv hkv
  | cons row rows ih =>
    intro m hm kv hkv
    simp only [List.foldl_cons] at hkv
    by_cases hdrop : normalizeCode (row.get? 0) = "" ∨ normalizePrompt (row.get? 1) = ""
    · rw [if_pos hdrop] at hkv
      exact ih m hm kv hkv
    · rw [if_neg hdrop] at hkv
      push_neg at hdrop
      refine ih _ ?_ kv hkv
      intro kv' hkv'
      rcases mem_aset _ _ _ kv' hkv' with h | h
      · subst h
        exact ⟨hdrop.1, hdrop.2, jsTrim_normalizeCode _, jsTrim_normalizePrompt _⟩
      · exact hm kv' h

lemma buildStyles_good (rows : List (List String)) :
    ∀ kv ∈ buildStyles rows, goodEntry kv := by
  intro kv hkv
  exact buildStyles_loop_good rows [] (by intro kv' h; simp at h) kv hkv

/-! ### Helper lemmas about refresh and getPrompt -/

lemma refreshRun_ok_styles (s : CacheState) (rows : List (List String)) (now : Nat) :
    ((refreshRun s (Except.ok rows) now).1).styles = buildStyles rows := by
  unfold refreshRun refreshStart refreshComplete
  cases h : s.refreshInFlight <;> simp [h]

lemma refreshRun_ok_result (s : CacheState) (rows : List (List String)) (now : Nat) :
    (refreshRun s (Except.ok rows) now).2 = Except.ok (buildStyles rows) := by
  unfold refreshRun refreshStart refreshComplete
  cases h : s.refreshInFlight <;> simp [h]

lemma getPrompt_congr_styles (s₁ s₂ : CacheState) (c : String)
    (h : s₁.styles = s₂.styles) : getPrompt s₁ c = getPrompt s₂ c := by
  unfold getPrompt
  rw [h]

/-! ### Helper lemmas about the session store -/

lemma getStatus_of_fst_OK (m : List (String × Session)) (u : String) (now : Nat)
    (code : String) (h : (getStatus m u now).1 = SessionStatus.OK code) :
    getStatus m u now = (SessionStatus.OK code, m) := by
  unfold getStatus at h ⊢
  cases hm : aget m u with
  | none =>
    rw [hm] at h
    simp at h
  | some sess =>
    rw [hm] at h
    by_cases he : sess.expiresAt < now
    · simp [he] at h
    · simp [he] at h
      simp [he, h]

lemma getStatus_sclear (m : List (String × Session)) (u : String) (now : Nat) :
    getStatus (sclear m u) u now = (SessionStatus.NONE, sclear m u) := by
  unfold getStatus sclear
  rw [aget_adel_self]

/-! ### Helper lemmas about text classification -/

lemma digit_not_greetingPunct (c : Char) (h : c.isDigit = true) :
    isGreetingPunct c = false := by
  unfold isGreetingPunct
  by_cases h1 : c = '!'
  · subst h1; exact absurd h (by decide)
  by_cases h2 : c = '.'
  · subst h2; exact absurd h (by decide)
  by_cases h3 : c = '،'
  · subst h3; exact absurd h (by decide)
  simp [h1, h2, h3]

lemma all_digits_dropWhile_punct (l : List Char) (h : l.all Char.isDigit = true) :
    l.dropWhile isGreetingPunct = l := by
  cases l with
  | nil => rfl
  | cons c rest =>
    simp only [List.all_cons, Bool.and_eq_true] at h
    exact dropWhile_cons_false c rest (digit_not_greetingPunct c h.1)

/-- A purely numeric utterance never matches the greeting detector. -/
lemma isNumericCode_not_greeting (s : String) (h : isNumericCode s = true) :
    isGreeting s = false := by
  unfold isNumericCode at h
  unfold isGreeting
  simp only [Bool.and_eq_true, decide_eq_true_eq] at h
  obtain ⟨hne, hdig⟩ := h
  have hsalam : ¬ normalizeText s = "السلام" := by
    intro he
    rw [he] at hdig
    simp at hdig
  rw [if_neg hsalam]
  have hstrip : stripGreetingPunct (normalizeText s).data = (normalizeText s).data := by
    unfold stripGreetingPunct
    rw [all_digits_dropWhile_punct _ (by rw [List.all_reverse]; exact hdig),
        List.reverse_reverse]
  have hcore : String.mk (stripGreetingPunct (normalizeText s).data) = normalizeText s := by
    rw [hstrip]
  rw [hcore]
  have h1 : ¬ normalizeText s = "السلام عليكم" := by
    intro he; rw [he] at hdig; simp at hdig
  have h2 : ¬ normalizeText s = "السلام عليكم ورحمة الله" := by
    intro he; rw [he] at hdig; simp at hdig
  have h3 : ¬ normalizeText s = "السلام عليكم ورحمة الله وبركاته" := by
    intro he; rw [he] at hdig; simp at hdig
  simp [h1, h2, h3]

/-! ### Claim theorems -/

/-- C1 counterexample: the claim says the Catalog Cache provides a
`getProvider` operation (and that provider resolution is never a
capability check on the cache object).  The object returned by
`createSheetsCache` defines neither `getProvider` nor `getModel`: its
snapshot is built from sheet columns A:B only (code and prompt), no
provider id is recorded, and the photo handler's provider resolution is
exactly a capability probe (`typeof stylesCache.getModel ===
"function"`) that fails for this cache. -/
theorem c1_counterexample :
    sheetsCacheOps.getProvider? = none ∧ sheetsCacheOps.getModel? = none :=
  ⟨rfl, rfl⟩

/-- C1 (amended): the Catalog Cache exposes no `getProvider` (nor
`getModel`) operation; provider resolution in the photo handler is a
runtime capability check for a `getModel` member which, for this cache,
always fails, so routing defaults to the OpenAI adapter for every
code. -/
theorem c1_amended_no_getProvider :
    sheetsCacheOps.getProvider? = none ∧ sheetsCacheOps.getModel? = none ∧
    ∀ (st : CacheState) (code : String),
      routeProvider (Option.map (fun f => f st) sheetsCacheOps.getModel?) code
        = Provider.openai := by
  refine ⟨rfl, rfl, ?_⟩
  intro st code
  rfl

/-- C2: refresh is single-flight.  A second `refresh()` call issued
while a first is still in flight attaches to the same promise (so both
callers observe the same settlement), performs no state change and no
second source fetch; the in-flight handle stays set until completion
releases it, after which a later `refresh()` starts a fresh fetch. -/
theorem c2_single_flight_refresh (s : CacheState) (h : s.refreshInFlight = none) :
    (refreshStart (refreshStart s).1).2 = (refreshStart s).2 ∧
    (refreshStart (refreshStart s).1).1 = (refreshStart s).1 ∧
    ((refreshStart s).1).fetchCount = s.fetchCount + 1 ∧
    ((refreshStart s).1).refreshInFlight = some (refreshStart s).2 ∧
    (∀ (fetch : FetchResult) (now : Nat),
      ((refreshComplete (refreshStart s).1 fetch now).1).refreshInFlight = none ∧
      ((refreshStart ((refreshComplete (refreshStart s).1 fetch now).1)).1).fetchCount
        = s.fetchCount + 2) := by
  refine ⟨?_, ?_, ?_, ?_, ?_⟩
  · simp [refreshStart, h]
  · simp [refreshStart, h]
  · simp [refreshStart, h]
  · simp [refreshStart, h]
  · intro fetch now
    cases fetch <;> simp [refreshStart, refreshComplete, h]

/-- C2 witness: the single-flight property evaluated at the initial
cache state. -/
theorem c2_witness :
    (refreshStart (refreshStart emptyCache).1).2 = (refreshStart emptyCache).2 ∧
    (refreshStart (refreshStart emptyCache).1).1 = (refreshStart emptyCache).1 ∧
    ((refreshStart emptyCache).1).fetchCount = emptyCache.fetchCount + 1 ∧
    ((refreshStart emptyCache).1).refreshInFlight = some (refreshStart emptyCache).2 ∧
    (∀ (fetch : FetchResult) (now : Nat),
      ((refreshComplete (refreshStart emptyCache).1 fetch now).1).refreshInFlight = none ∧
      ((refreshStart ((refreshComplete (refreshStart emptyCache).1 fetch now).1)).1).fetchCount
        = emptyCache.fetchCount + 2) :=
  c2_single_flight_refresh emptyCache rfl

/-- C3: a successful `refresh()` replaces the snapshot wholesale: the
new styles map is exactly the one built from the fetched rows, the
refresh resolves with it, every code bound in the new map resolves to
its new prompt, and every code absent from the new map is not
resolvable — whatever the previous snapshot contained. -/
theorem c3_refresh_full_replacement (cache : CacheState)
    (rows : List (List String)) (now : Nat) (c : String) :
    ((refreshRun cache (Except.ok rows) now).1).styles = buildStyles rows ∧
    (refreshRun cache (Except.ok rows) now).2 = Except.ok (buildStyles rows) ∧
    (∀ p, aget (buildStyles rows) (jsTrim c) = some p →
      getPrompt (refreshRun cache (Except.ok rows) now).1 c = some p) ∧
    (aget (buildStyles rows) (jsTrim c) = none →
      getPrompt (refreshRun cache (Except.ok rows) now).1 c = none) := by
  have hs := refreshRun_ok_styles cache rows now
  refine ⟨hs, refreshRun_ok_result cache rows now, ?_, ?_⟩
  · intro p hp
    have hg := buildStyles_good rows _ (aget_mem _ _ _ hp)
    have hpne : p ≠ "" := hg.2.1
    unfold getPrompt
    rw [hs]
    simp only [normalizeCode]
    rw [hp]
    show (if p = "" then none else some p) = some p
    rw [if_neg hpne]
  · intro hp
    unfold getPrompt
    rw [hs]
    simp only [normalizeCode]
    rw [hp]

/-- C3 witness: refreshing an empty cache with one row makes that code
resolvable and leaves other codes unresolvable. -/
theorem c3_witness :
    getPrompt ((refreshRun emptyCache (Except.ok [["7", "x"]]) 5).1) "7" = some "x" ∧
    getPrompt ((refreshRun emptyCache (Except.ok [["7", "x"]]) 5).1) "9" = none :=
  ⟨(c3_refresh_full_replacement emptyCache [["7", "x"]] 5 "7").2.2.1 "x" (by decide),
   (c3_refresh_full_replacement emptyCache [["7", "x"]] 5 "9").2.2.2 (by decide)⟩

/-- C9: `refresh()` is atomic on failure: when the underlying fetch
rejects, the call rejects with that error, the snapshot map and the
last-refresh timestamp keep their prior values, and every `getPrompt`
answer is unchanged. -/
theorem c9_refresh_failure_atomic (s : CacheState) (e : String) (now : Nat) :
    (refreshRun s (Except.error e) now).2 = Except.error e ∧
    ((refreshRun s (Except.error e) now).1).styles = s.styles ∧
    ((refreshRun s (Except.error e) now).1).lastRefreshAt = s.lastRefreshAt ∧
    ∀ c, getPrompt ((refreshRun s (Except.error e) now).1) c = getPrompt s c := by
  have hs : ((refreshRun s (Except.error e) now).1).styles = s.styles := by
    unfold refreshRun refreshStart refreshComplete
    cases h : s.refreshInFlight <;> simp
  refine ⟨?_, hs, ?_, ?_⟩
  · unfold refreshRun refreshStart refreshComplete
    cases h : s.refreshInFlight <;> simp
  · unfold refreshRun refreshStart refreshComplete
    cases h : s.refreshInFlight <;> simp
  · intro c
    exact getPrompt_congr_styles _ _ c hs

/-- C4: expiry is a one-shot observable signal.  When a user's stored
session has passed its expiry instant, the next `getStatus` deletes it
and returns EXPIRED, and the immediately following `getStatus` (at any
later read time) returns NONE. -/
theorem c4_expiry_one_shot (m : List (String × Session)) (u : String)
    (now now' : Nat) (sess : Session)
    (hs : aget m u = some sess) (he : sess.expiresAt < now) :
    getStatus m u now = (SessionStatus.EXPIRED, adel m u) ∧
    getStatus (adel m u) u now' = (SessionStatus.NONE, adel m u) := by
  constructor
  · unfold getStatus
    rw [hs]
    dsimp only
    rw [if_pos he]
  · unfold getStatus
    rw [aget_adel_self]

/-- C4 witness: a session that expired at 5, read at 6 then at 7. -/
theorem c4_witness :
    getStatus [("u", ⟨"101", 5⟩)] "u" 6
      = (SessionStatus.EXPIRED, adel [("u", ⟨"101", 5⟩)] "u") ∧
    getStatus (adel [("u", ⟨"101", 5⟩)] "u") "u" 7
      = (SessionStatus.NONE, adel [("u", ⟨"101", 5⟩)] "u") :=
  c4_expiry_one_shot [("u", ⟨"101", 5⟩)] "u" 6 7 ⟨"101", 5⟩ (by decide) (by decide)

/-- C5: `set(u, c)` creates or overwrites u's session with code c and an
expiry exactly `TTL_MS = 5` minutes after the call; any `getStatus`
before that expiry returns OK(c) and leaves the map unchanged, so
repeated valid reads keep returning OK(c). -/
theorem c5_set_then_valid_read (m : List (String × Session)) (u c : String)
    (now now' : Nat) (h : now' < now + TTL_MS) :
    aget (sset m u c now) u = some { code := c, expiresAt := now + TTL_MS } ∧
    TTL_MS = 5 * 60 * 1000 ∧
    getStatus (sset m u c now) u now' = (SessionStatus.OK c, sset m u c now) := by
  have ha : aget (sset m u c now) u = some (⟨c, now + TTL_MS⟩ : Session) :=
    aget_aset_self m u ⟨c, now + TTL_MS⟩
  refine ⟨ha, rfl, ?_⟩
  unfold getStatus
  rw [ha]
  dsimp only
  have hne : ¬ (now + TTL_MS < now') := by omega
  rw [if_neg hne]

/-- C5 witness: set at time 0, read at time 1000 (well inside the 5
minute TTL). -/
theorem c5_witness :
    aget (sset [] "u" "101" 0) "u" = some { code := "101", expiresAt := 0 + TTL_MS } ∧
    TTL_MS = 5 * 60 * 1000 ∧
    getStatus (sset [] "u" "101" 0) "u" 1000 = (SessionStatus.OK "101", sset [] "u" "101" 0) :=
  c5_set_then_valid_read [] "u" "101" 0 1000 (by decide)

/-- C6: no snapshot entry has an empty code or prompt, even after
trimming: the build of the styles map drops every row whose normalized
code or prompt is empty, and the invariant holds for the snapshot
installed by every successful refresh. -/
theorem c6_snapshot_no_empty_entries (rows : List (List String))
    (cache : CacheState) (now : Nat) (kv : String × String) :
    (kv ∈ buildStyles rows →
      kv.1 ≠ "" ∧ kv.2 ≠ "" ∧ jsTrim kv.1 ≠ "" ∧ jsTrim kv.2 ≠ "") ∧
    (kv ∈ ((refreshRun cache (Except.ok rows) now).1).styles →
      kv.1 ≠ "" ∧ kv.2 ≠ "" ∧ jsTrim kv.1 ≠ "" ∧ jsTrim kv.2 ≠ "") := by
  have key : kv ∈ buildStyles rows →
      kv.1 ≠ "" ∧ kv.2 ≠ "" ∧ jsTrim kv.1 ≠ "" ∧ jsTrim kv.2 ≠ "" := by
    intro h
    obtain ⟨h1, h2, h3, h4⟩ := buildStyles_good rows kv h
    exact ⟨h1, h2, by rw [h3]; exact h1, by rw [h4]; exact h2⟩
  refine ⟨key, ?_⟩
  rw [refreshRun_ok_styles]
  exact key

/-- C6 witness: the entry built from the padded row `[" 7 ", " x "]`. -/
theorem c6_witness :
    ("7", "x").1 ≠ "" ∧ ("7", "x").2 ≠ "" ∧
    jsTrim ("7", "x").1 ≠ "" ∧ jsTrim ("7", "x").2 ≠ "" :=
  (c6_snapshot_no_empty_entries [[" 7 ", " x "]] emptyCache 0 ("7", "x")).1 (by decide)

/-- Case analysis of the photo handler from an OK session: in every
outcome the session map is cleared exactly once and the only adapter
that can have been invoked is the routed one. -/
lemma handlePhoto_OK (cache : CacheState)
    (getModel? : Option (String → Option String))
    (sessions : List (String × Session)) (u : String) (fetch : FetchResult)
    (download : Except String String)
    (providerRun : Provider → String → Except String String)
    (now : Nat) (code : String)
    (h : getStatus sessions u now = (SessionStatus.OK code, sessions)) :
    (handlePhoto cache getModel? sessions u fetch download providerRun now).sessions
      = sclear sessions u ∧
    (handlePhoto cache getModel? sessions u fetch download providerRun now).clearCalls = 1 ∧
    ((handlePhoto cache getModel? sessions u fetch download providerRun now).providerCalled = none ∨
     (handlePhoto cache getModel? sessions u fetch download providerRun now).providerCalled
       = some (routeProvider getModel? code)) := by
  unfold handlePhoto
  rw [h]
  dsimp only
  cases hr1 : getPrompt cache code with
  | none =>
    cases hr2 : getPrompt ((refreshRun cache fetch now).1) code with
    | none => simp [hr1, hr2]
    | some p =>
      cases download with
      | error e => simp [hr1, hr2]
      | ok d =>
        cases hpr : providerRun (routeProvider getModel? code) p <;>
          simp [hr1, hr2, hpr]
  | some p =>
    cases download with
    | error e => simp [hr1]
    | ok d =>
      cases hpr : providerRun (routeProvider getModel? code) p <;>
        simp [hr1, hpr]

/-- C7: on a purely numeric utterance whose code misses the current
snapshot, the text handler performs exactly one synchronous refresh
(whatever the fetch outcome — a failure is swallowed) and retries the
lookup once; a retry miss yields exactly the invalid-style reply and
leaves the session map untouched, while a retry hit writes the session
and asks for the image. -/
theorem c7_numeric_miss_refresh_once (cache : CacheState)
    (sessions : List (String × Session)) (u rawText : String) (first : Bool)
    (fetch : FetchResult) (now : Nat)
    (hn : isNumericCode (normalizeText rawText) = true)
    (hm : getPrompt cache (normalizeText rawText) = none) :
    (handleText cache sessions u rawText first fetch now).refreshCalls = 1 ∧
    (handleText cache sessions u rawText first fetch now).cache
      = (refreshRun cache fetch now).1 ∧
    (getPrompt ((refreshRun cache fetch now).1) (normalizeText rawText) = none →
      (handleText cache sessions u rawText first fetch now).replies = [MSG_INVALID_STYLE] ∧
      (handleText cache sessions u rawText first fetch now).sessions = sessions) ∧
    (∀ p, getPrompt ((refreshRun cache fetch now).1) (normalizeText rawText) = some p →
      (handleText cache sessions u rawText first fetch now).replies = [MSG_ASK_IMAGE] ∧
      (handleText cache sessions u rawText first fetch now).sessions
        = sset sessions u (normalizeText rawText) now) := by
  have hg : isGreeting (normalizeText rawText) = false :=
    isNumericCode_not_greeting _ hn
  cases hp : getPrompt ((refreshRun cache fetch now).1) (normalizeText rawText) with
  | none =>
    refine ⟨?_, ?_, ?_, ?_⟩ <;> simp [handleText, hg, hn, hm, hp]
  | some p =>
    refine ⟨?_, ?_, ?_, ?_⟩ <;> simp [handleText, hg, hn, hm, hp]

/-- C7 witness: the text "999" against an empty snapshot, with a refresh
that does not add it: the reply is exactly the invalid-style message and
no session is created. -/
theorem c7_witness :
    (handleText emptyCache [] "u" "999" false (Except.ok []) 0).replies
      = [MSG_INVALID_STYLE] ∧
    (handleText emptyCache [] "u" "999" false (Except.ok []) 0).sessions = [] :=
  (c7_numeric_miss_refresh_once emptyCache [] "u" "999" false (Except.ok []) 0
      (by decide) (by decide)).2.2.1 (by decide)

/-- C8: photo handling that starts from an OK session clears that user's
session exactly once in every outcome — prompt-resolution failure,
image-fetch failure, provider failure and provider success alike — so a
`getStatus` for that user after the handler finishes returns NONE. -/
theorem c8_photo_clears_session_once (cache : CacheState)
    (getModel? : Option (String → Option String))
    (sessions : List (String × Session)) (u : String) (fetch : FetchResult)
    (download : Except String String)
    (providerRun : Provider → String → Except String String)
    (now now' : Nat) (code : String)
    (h : (getStatus sessions u now).1 = SessionStatus.OK code) :
    (handlePhoto cache getModel? sessions u fetch download providerRun now).clearCalls = 1 ∧
    (getStatus
      (handlePhoto cache getModel? sessions u fetch download providerRun now).sessions
      u now').1 = SessionStatus.NONE := by
  have hfull := getStatus_of_fst_OK sessions u now code h
  obtain ⟨hses, hclear, _⟩ :=
    handlePhoto_OK cache getModel? sessions u fetch download providerRun now code hfull
  refine ⟨hclear, ?_⟩
  rw [hses, getStatus_sclear]

/-- C8 witness: an OK session consumed by a successful provider run. -/
theorem c8_witness :
    (handlePhoto { emptyCache with styles := [("5", "p")] } none
      [("u", ⟨"5", 50⟩)] "u" (Except.ok []) (Except.ok "img")
      (fun _ _ => Except.ok "out") 10).clearCalls = 1 ∧
    (getStatus
      (handlePhoto { emptyCache with styles := [("5", "p")] } none
        [("u", ⟨"5", 50⟩)] "u" (Except.ok []) (Except.ok "img")
        (fun _ _ => Except.ok "out") 10).sessions
      "u" 11).1 = SessionStatus.NONE :=
  c8_photo_clears_session_once { emptyCache with styles := [("5", "p")] } none
    [("u", ⟨"5", 50⟩)] "u" (Except.ok []) (Except.ok "img")
    (fun _ _ => Except.ok "out") 10 11 "5" (by decide)

/-- C10: provider routing in the photo handler defaults to the OpenAI
adapter: when the cache exposes no model-lookup function, or the
looked-up marker is falsy (absent or empty), or the marker after
trimming and lowercasing is anything other than "gemini", the route is
the OpenAI adapter — and in a photo run from an OK session the Gemini
adapter is then never the invoked one. -/
theorem c10_provider_routing_defaults_openai
    (getModel? : Option (String → Option String)) (code : String)
    (h : getModel? = none ∨
      ∀ f, getModel? = some f →
        (f code).getD "" = "" ∨ jsToLower (jsTrim ((f code).getD "")) ≠ "gemini") :
    routeProvider getModel? code = Provider.openai ∧
    ∀ (cache : CacheState) (sessions : List (String × Session)) (u : String)
      (fetch : FetchResult) (download : Except String String)
      (providerRun : Provider → String → Except String String) (now : Nat),
      (getStatus sessions u now).1 = SessionStatus.OK code →
      ((handlePhoto cache getModel? sessions u fetch download providerRun now).providerCalled
          = none ∨
       (handlePhoto cache getModel? sessions u fetch download providerRun now).providerCalled
          = some Provider.openai) := by
  have hroute : routeProvider getModel? code = Provider.openai := by
    cases hgm : getModel? with
    | none => rfl
    | some f =>
      have hf : (f code).getD "" = "" ∨ jsToLower (jsTrim ((f code).getD "")) ≠ "gemini" := by
        rcases h with h | h
        · rw [hgm] at h; cases h
        · exact h f hgm
      cases hfc : f code with
      | none => simp [routeProvider, selectModel, hfc]
      | some m =>
        by_cases hm0 : m = ""
        · simp [routeProvider, selectModel, hfc, hm0]
        · have hne : jsToLower (jsTrim m) ≠ "gemini" := by
            rw [hfc] at hf
            simp only [Option.getD_some] at hf
            rcases hf with hf | hf
            · exact absurd hf hm0
            · exact hf
          simp [routeProvider, selectModel, hfc, hm0, hne]
  refine ⟨hroute, ?_⟩
  intro cache sessions u fetch download providerRun now hok
  have hfull := getStatus_of_fst_OK sessions u now code hok
  obtain ⟨_, _, hcall⟩ :=
    handlePhoto_OK cache getModel? sessions u fetch download providerRun now code hfull
  rcases hcall with hcall | hcall
  · exact Or.inl hcall
  · right
    rw [hcall, hroute]

/-- C10 witness: the real cache object exposes no model lookup, so a
photo run from an OK session invokes the OpenAI adapter. -/
theorem c10_witness :
    routeProvider none "5" = Provider.openai ∧
    ((handlePhoto { emptyCache with styles := [("5", "p")] } none
        [("u", ⟨"5", 50⟩)] "u" (Except.ok []) (Except.ok "img")
        (fun _ _ => Except.ok "out") 10).providerCalled = none ∨
     (handlePhoto { emptyCache with styles := [("5", "p")] } none
        [("u", ⟨"5", 50⟩)] "u" (Except.ok []) (Except.ok "img")
        (fun _ _ => Except.ok "out") 10).providerCalled = some Provider.openai) :=
  ⟨(c10_provider_routing_defaults_openai none "5" (Or.inl rfl)).1,
   (c10_provider_routing_defaults_openai none "5" (Or.inl rfl)).2
     { emptyCache with styles := [("5", "p")] } [("u", ⟨"5", 50⟩)] "u"
     (Except.ok []) (Except.ok "img") (fun _ _ => Except.ok "out") 10 (by decide)⟩

end MenuVision
